import Mathlib

/-!
Verification development for the `firebase-admin-python` rules modules
(`firebase_admin/_rules.py`, `firebase_admin/_database_rules_service.py`,
`firebase_admin/_firebase_rules_service.py`).

The Python code is shallowly embedded: each Python function relevant to the
claims is translated into an executable Lean definition.  Python exceptions
are modelled by an explicit `PyError` type and `Except`/`Option` results;
`str.format` is modelled by an explicit piece list so that replacement-index
errors are visible; HTTP traffic is modelled by explicit request records.
-/

set_option autoImplicit false

/-- Models the Python exceptions that the embedded code can raise. -/
inductive PyError where
  | valueError (msg : String)
  | keyError (key : String)
  | indexError (index : Nat)
  | attributeError (msg : String)
  deriving DecidableEq, Repr

/-- One piece of a Python format string: a literal chunk or a positional
replacement field index, as in `'{0} x {2}'`. -/
inductive FmtPiece where
  | lit (s : String)
  | arg (i : Nat)
  deriving DecidableEq, Repr

/-- Models Python `template.format(*args)` for positional string arguments:
concatenates the pieces, raising `IndexError` when a replacement index is out
of range of the argument tuple. -/
def pyFormat (args : List String) : List FmtPiece → Except PyError String
  | [] => .ok ""
  | .lit s :: rest => (pyFormat args rest).map (fun t => s ++ t)
  | .arg i :: rest =>
    match args[i]? with
    | none => .error (.indexError i)
    | some a => (pyFormat args rest).map (fun t => a ++ t)

/-- Models Python truthiness of an optional string (`if x:`):
`None` and the empty string are falsy. -/
def pyTruthyStrOpt : Option String → Bool
  | none => false
  | some s => s != ""

/-- Models a `requests.exceptions.RequestException` as observed by the
`_extract_message` helpers: an optional response status code
(`error.response.status_code` when `error.response is not None`) and the
result of `str(error)`. -/
structure RequestError where
  responseStatus : Option Nat
  toStr : String
  deriving DecidableEq, Repr

namespace DatabaseRules
/-! Embedding of `_DatabaseRulesService` from `firebase_admin/_rules.py`. -/

/-- `_DatabaseRulesService.ERROR_CODES` from `_rules.py` (statuses 400, 401,
403, 404, 409, 423, 500, 503). -/
def ERROR_CODES : List (Nat × String) :=
  [ (400, "Invalid argument provided."),
    (401, "Request not authorized."),
    (403, "Client does not have sufficient privileges."),
    (404, "The specified entity could not be found."),
    (409, "The specified entity already exists."),
    (423, "The database has been manually locked by an owner."),
    (500, "Internal server error."),
    (503, "The server could not process the request in time.") ]

/-- `_DatabaseRulesService._extract_message(operation, error)` from
`_rules.py`.  The unmapped-status branch is the source line
`'{0} Database rules: Error {2}.'.format(operation, status)`, whose
replacement index 2 is out of range for its two arguments. -/
def extract_message (operation : String) (error : RequestError) : Except PyError String :=
  match error.responseStatus with
  | none =>
    pyFormat [operation, error.toStr] [.arg 0, .lit " Database rules: ", .arg 1]
  | some status =>
    let message := ERROR_CODES.lookup status
    if pyTruthyStrOpt message then
      pyFormat [operation, message.getD ""] [.arg 0, .lit " Database rules: ", .arg 1]
    else
      pyFormat [operation, toString status]
        [.arg 0, .lit " Database rules: Error ", .arg 2, .lit "."]

end DatabaseRules

namespace FirebaseRules
/-! Embedding of `_FirebaseRulesService` from `firebase_admin/_rules.py`. -/

/-- `_FirebaseRulesService._ERROR_CODES` from `_rules.py` (statuses 400, 401,
403, 404, 409, 429, 500, 503). -/
def ERROR_CODES : List (Nat × String) :=
  [ (400, "Invalid argument provided."),
    (401, "Request not authorized."),
    (403, "Client does not have sufficient privileges."),
    (404, "The specified entity could not be found."),
    (409, "The specified entity already exists."),
    (429, "Quota exceeded for the requested resource."),
    (500, "Internal server error."),
    (503, "The server could not process the request in time.") ]

/-- `_FirebaseRulesService._RELEASE_NAME_FOR_SERVICE` from `_rules.py`. -/
def RELEASE_NAME_FOR_SERVICE : List (String × String) :=
  [ ("firestore", "cloud.firestore"),
    ("storage", "firebase.storage") ]

/-- `_FirebaseRulesService._extract_message(identifier, identifier_label, error)`
from `_rules.py`: the mapped branch is
`'{0} "{1}": {2}'.format(identifier_label, identifier, message)`, the
unmapped branch `'{0} "{1}": Error {2}.'.format(identifier_label, identifier, status)`. -/
def extract_message (identifier identifier_label : String) (error : RequestError) :
    Except PyError String :=
  match error.responseStatus with
  | none =>
    pyFormat [identifier_label, identifier, error.toStr]
      [.arg 0, .lit " \"", .arg 1, .lit "\": ", .arg 2]
  | some status =>
    let message := ERROR_CODES.lookup status
    if pyTruthyStrOpt message then
      pyFormat [identifier_label, identifier, message.getD ""]
        [.arg 0, .lit " \"", .arg 1, .lit "\": ", .arg 2]
    else
      pyFormat [identifier_label, identifier, toString status]
        [.arg 0, .lit " \"", .arg 1, .lit "\": Error ", .arg 2, .lit "."]

end FirebaseRules

namespace FirebaseRulesSvc
/-! Embedding of `_FirebaseRulesService` from
`firebase_admin/_firebase_rules_service.py` (the duplicate module). -/

/-- `_FirebaseRulesService.ERROR_CODES` from `_firebase_rules_service.py`. -/
def ERROR_CODES : List (Nat × String) :=
  [ (400, "Invalid argument provided."),
    (401, "Request not authorized."),
    (403, "Client does not have sufficient privileges."),
    (404, "The specified entity could not be found."),
    (409, "The specified entity already exists."),
    (429, "Quota exceeded for the requested resource."),
    (500, "Internal server error."),
    (503, "The server could not process the request in time.") ]

/-- `_FirebaseRulesService._extract_message(identifier, identifier_label, error)`
from `_firebase_rules_service.py`, textually identical to the `_rules.py`
version but reading this module's own `ERROR_CODES` table. -/
def extract_message (identifier identifier_label : String) (error : RequestError) :
    Except PyError String :=
  match error.responseStatus with
  | none =>
    pyFormat [identifier_label, identifier, error.toStr]
      [.arg 0, .lit " \"", .arg 1, .lit "\": ", .arg 2]
  | some status =>
    let message := ERROR_CODES.lookup status
    if pyTruthyStrOpt message then
      pyFormat [identifier_label, identifier, message.getD ""]
        [.arg 0, .lit " \"", .arg 1, .lit "\": ", .arg 2]
    else
      pyFormat [identifier_label, identifier, toString status]
        [.arg 0, .lit " \"", .arg 1, .lit "\": Error ", .arg 2, .lit "."]

end FirebaseRulesSvc




/-- A reference to a RulesetFile within a Ruleset (`RulesetFile` in `_rules.py`). -/
structure RulesetFile where
  name : String
  content : String
  deriving DecidableEq, Repr

/-- A reference to a Ruleset within a Firebase project (`Ruleset` in `_rules.py`).
The constructor `Ruleset(ruleset_id, create_time, files=None, service=None)`
stores `_files` and `_service`; the `service` back-reference is modelled as the
files-producing effect of a successful `service.get_ruleset(ruleset_id)` call
(`get_ruleset` always returns a ruleset whose `_files` is an eagerly built
list, so accessing `.files` on it is exactly that list). -/
structure Ruleset where
  ruleset_id : String
  create_time : String
  service : Option (String → List RulesetFile)
  filesStored : Option (List RulesetFile)

/-- The `files` property of `Ruleset` in `_rules.py`: returns the Python value
of `self._files` after the property body ran, together with the updated object
state and the number of `get_ruleset` fetches the access performed. -/
def Ruleset.files (r : Ruleset) : Option (List RulesetFile) × Ruleset × Nat :=
  match r.filesStored, r.service with
  | none, some svc =>
    let fs := svc r.ruleset_id
    (some fs, { r with filesStored := some fs }, 1)
  | none, none => (none, r, 0)
  | some fs, _ => (some fs, r, 0)

/-- A reference to a Rules Release within a Firebase project
(`RulesRelease` in `_rules.py`). -/
structure RulesRelease where
  name : String
  ruleset_id : String
  create_time : String
  update_time : String
  deriving DecidableEq, Repr

/-- A JSON value, for the request bodies the client serializes. -/
inductive JVal where
  | str (s : String)
  | obj (fields : List (String × JVal))
  | arr (elems : List JVal)

/-- One HTTP request issued through the underlying client:
`self._client.body(method=..., url=..., json=...)`. -/
structure HttpRequest where
  method : String
  url : String
  json : Option JVal

/-- Result of running one client operation: a normal return, a raised
`RulesApiCallError(message, error)` from `_make_request`, or an unwrapped
Python exception escaping the operation. -/
inductive OpResult (α : Type) where
  | ok (val : α)
  | apiCallError (message : String) (detail : RequestError)
  | pyError (e : PyError)

/-- Drops the literal pattern (first argument) from the head of the list,
returning the remainder; `none` when the list does not start with it. -/
def dropLit : List Char → List Char → Option (List Char)
  | [], l => some l
  | _ :: _, [] => none
  | p :: ps, c :: cs => if c = p then dropLit ps cs else none

/-- Splits a character list at its first `'/'`: returns the (slash-free)
segment before it and the remainder after it; `none` when there is no slash. -/
def takeUntilSlash : List Char → Option (List Char × List Char)
  | [] => none
  | c :: cs =>
    if c = '/' then some ([], cs)
    else
      match takeUntilSlash cs with
      | none => none
      | some (a, b) => some (c :: a, b)

/-- The match of Python `re.search('^projects/([^/]+)/<mid>/(.+)$', name)` for
a literal middle segment `mid`, returning group 2 when the pattern matches.
`[^/]+` forces group 1 to be the nonempty run up to the first slash; `.` does
not match a newline, and `$` also matches just before one trailing newline. -/
def matchResource (mid : List Char) (name : List Char) : Option (List Char) :=
  match dropLit "projects/".toList name with
  | none => none
  | some rest =>
    match takeUntilSlash rest with
    | none => none
    | some (p, rest2) =>
      if p.isEmpty then none
      else
        match dropLit (mid ++ ['/']) rest2 with
        | none => none
        | some r =>
          let r2 := if r.getLast? = some '\n' then r.dropLast else r
          if r2.isEmpty then none
          else if r2.contains '\n' then none
          else some r2

namespace FirebaseRules

/-- `_FirebaseRulesService._extract_release_name(name)` from `_rules.py`:
`re.search('^projects/([^/]+)/releases/(.+)$', name)` followed by `m.group(2)`.
`none` models the `AttributeError` raised by `.group` on a failed match. -/
def extract_release_name (name : String) : Option String :=
  (matchResource "releases".toList name.toList).map String.mk

/-- `_FirebaseRulesService._extract_ruleset_id(name)` from `_rules.py`:
`re.search('^projects/([^/]+)/rulesets/(.+)$', name)` followed by `m.group(2)`.
`none` models the `AttributeError` raised by `.group` on a failed match. -/
def extract_ruleset_id (name : String) : Option String :=
  (matchResource "rulesets".toList name.toList).map String.mk

end FirebaseRules





/-- The backend JSON for a release, as indexed by the client:
`response["name"]`, `response["rulesetName"]`, `response["createTime"]`,
`response["updateTime"]`. -/
structure ReleaseResponse where
  name : String
  rulesetName : String
  createTime : String
  updateTime : String
  deriving DecidableEq, Repr

/-- The backend JSON for a ruleset, as indexed by the client:
`response["name"]`, `response["createTime"]`, and the
`(f['name'], f['content'])` pairs of `response["source"]["files"]`. -/
structure RulesetResponse where
  name : String
  createTime : String
  sourceFiles : List (String × String)
  deriving DecidableEq, Repr

namespace FirebaseRules

/-- The `except` clause of `_FirebaseRulesService._make_request` in `_rules.py`:
wraps a transport error into `RulesApiCallError(_extract_message(...), error)`;
an exception raised while building the message itself escapes unwrapped. -/
def wrapTransportError {α : Type} (identifier identifier_label : String)
    (error : RequestError) : OpResult α :=
  match extract_message identifier identifier_label error with
  | .ok msg => .apiCallError msg error
  | .error e => .pyError e

/-- The `AttributeError` raised by `m.group(2)` when `re.search` returned `None`. -/
def noneGroupError {α : Type} : OpResult α :=
  .pyError (.attributeError "NoneType object has no attribute group")

/-- `_FirebaseRulesService.get_rules_release(name)` from `_rules.py`.
The transport argument stands for the outcome of `_make_request`: the parsed
JSON body, or the `requests` exception it raised.  Returns the operation
result and the list of HTTP requests issued. -/
def get_rules_release (name : String) (transport : Except RequestError ReleaseResponse) :
    OpResult RulesRelease × List HttpRequest :=
  let path := "releases/" ++ name
  let req : HttpRequest := ⟨"get", path, none⟩
  (match transport with
   | .error error => wrapTransportError name "Release" error
   | .ok response =>
     match extract_release_name response.name with
     | none => noneGroupError
     | some relName =>
       match extract_ruleset_id response.rulesetName with
       | none => noneGroupError
       | some rid => .ok ⟨relName, rid, response.createTime, response.updateTime⟩,
   [req])

/-- `_FirebaseRulesService.create_rules_release(name, ruleset_id)` from
`_rules.py`: POST to `releases` with the request body built from
`self._project_id`, then the same response parsing as `get_rules_release`. -/
def create_rules_release (project_id name ruleset_id : String)
    (transport : Except RequestError ReleaseResponse) :
    OpResult RulesRelease × List HttpRequest :=
  let path := "releases"
  let request_body : JVal :=
    .obj [("release", .obj
      [("name", .str ("projects/" ++ project_id ++ "/releases/" ++ name)),
       ("rulesetName", .str ("projects/" ++ project_id ++ "/rulesets/" ++ ruleset_id))])]
  let req : HttpRequest := ⟨"post", path, some request_body⟩
  (match transport with
   | .error error => wrapTransportError name "Release" error
   | .ok response =>
     match extract_release_name response.name with
     | none => noneGroupError
     | some relName =>
       match extract_ruleset_id response.rulesetName with
       | none => noneGroupError
       | some rid => .ok ⟨relName, rid, response.createTime, response.updateTime⟩,
   [req])

/-- `_FirebaseRulesService.update_rules_release(name, ruleset_id)` from
`_rules.py`: PATCH to `releases/{name}` with the same body shape as create,
then the same response parsing as `get_rules_release`. -/
def update_rules_release (project_id name ruleset_id : String)
    (transport : Except RequestError ReleaseResponse) :
    OpResult RulesRelease × List HttpRequest :=
  let path := "releases/" ++ name
  let request_body : JVal :=
    .obj [("release", .obj
      [("name", .str ("projects/" ++ project_id ++ "/releases/" ++ name)),
       ("rulesetName", .str ("projects/" ++ project_id ++ "/rulesets/" ++ ruleset_id))])]
  let req : HttpRequest := ⟨"patch", path, some request_body⟩
  (match transport with
   | .error error => wrapTransportError name "Release" error
   | .ok response =>
     match extract_release_name response.name with
     | none => noneGroupError
     | some relName =>
       match extract_ruleset_id response.rulesetName with
       | none => noneGroupError
       | some rid => .ok ⟨relName, rid, response.createTime, response.updateTime⟩,
   [req])

/-- `_FirebaseRulesService._get_ruleset_file_obj(file)` from `_rules.py`. -/
def get_ruleset_file_obj (file : String × String) : RulesetFile :=
  ⟨file.1, file.2⟩

/-- `_FirebaseRulesService.get_ruleset(ruleset_id)` from `_rules.py`: GET
`rulesets/{ruleset_id}`, then a `Ruleset` with the short id extracted from
`response["name"]` and `files` eagerly built from `response["source"]["files"]`
(the `service` argument of the `Ruleset` constructor defaults to `None`). -/
def get_ruleset (ruleset_id : String) (transport : Except RequestError RulesetResponse) :
    OpResult Ruleset × List HttpRequest :=
  let path := "rulesets/" ++ ruleset_id
  let req : HttpRequest := ⟨"get", path, none⟩
  (match transport with
   | .error error => wrapTransportError ruleset_id "Ruleset ID" error
   | .ok response =>
     match extract_ruleset_id response.name with
     | none => noneGroupError
     | some rid =>
       .ok ⟨rid, response.createTime, none, some (response.sourceFiles.map get_ruleset_file_obj)⟩,
   [req])

/-- `_FirebaseRulesService.create_ruleset(files)` from `_rules.py`: POST
`rulesets` with body `{'source': {'files': [{'name': ..., 'content': ...}]}}`
built from the given files, then the same parsing as `get_ruleset` (with
identifier `'create'`). -/
def create_ruleset (files : List RulesetFile) (transport : Except RequestError RulesetResponse) :
    OpResult Ruleset × List HttpRequest :=
  let path := "rulesets"
  let files_list : List JVal :=
    files.map fun f => .obj [("name", .str f.name), ("content", .str f.content)]
  let request_body : JVal := .obj [("source", .obj [("files", .arr files_list)])]
  let req : HttpRequest := ⟨"post", path, some request_body⟩
  (match transport with
   | .error error => wrapTransportError "create" "Ruleset ID" error
   | .ok response =>
     match extract_ruleset_id response.name with
     | none => noneGroupError
     | some rid =>
       .ok ⟨rid, response.createTime, none, some (response.sourceFiles.map get_ruleset_file_obj)⟩,
   [req])

/-- `_FirebaseRulesService._get_release_name_for_service(service)` from
`_rules.py`: looks the service up in `_RELEASE_NAME_FOR_SERVICE` (a missing
key raises `KeyError`), then for `'storage'` requires a truthy
`self._storage_bucket` (else `ValueError`) and appends it. -/
def get_release_name_for_service (storage_bucket : Option String) (service : String) :
    Except PyError String :=
  match RELEASE_NAME_FOR_SERVICE.lookup service with
  | none => .error (.keyError service)
  | some baseName =>
    if service = "storage" then
      if pyTruthyStrOpt storage_bucket then
        .ok (baseName ++ "/" ++ storage_bucket.getD "")
      else
        .error (.valueError ("Unable to determine the storage bucket to use. " ++
          "Make sure to set the \"storageBucket\" option when calling initializeApp()."))
    else
      .ok baseName

/-- The configured per-instance state built by `_FirebaseRulesService.__init__`. -/
structure ServiceState where
  project_id : String
  storage_bucket : Option String
  base_url : String
  timeout : Option Nat
  deriving DecidableEq, Repr

/-- `_FirebaseRulesService.__init__(app)` from `_rules.py`: reads
`app.project_id` and `app.options` (passed here as the constructor's inputs),
raises `ValueError` when the project id is falsy, and otherwise builds the
per-instance state.  The second component lists the HTTP requests issued
during construction (none: building the HTTP client sends nothing). -/
def serviceInit (project_id : Option String) (storage_bucket : Option String)
    (httpTimeout : Option Nat) : Except PyError ServiceState × List HttpRequest :=
  if pyTruthyStrOpt project_id then
    let pid := project_id.getD ""
    (.ok ⟨pid, storage_bucket,
      "https://firebaserules.googleapis.com/v1/projects/" ++ pid ++ "/", httpTimeout⟩, [])
  else
    (.error (.valueError ("Project ID is required to access the Firebase Rules Service. " ++
      "Either set the projectId option, or use service account credentials. " ++
      "Alternatively, set the GOOGLE_CLOUD_PROJECT environment variable.")), [])

end FirebaseRules

namespace DatabaseRules

/-- The configured per-instance state built by `_DatabaseRulesService.__init__`
in `_rules.py`: the validated URL stored in `self._db_url` and the raw URL the
HTTP client is pointed at. -/
structure ServiceState where
  db_url : String
  base_url : String
  timeout : Option Nat
  deriving DecidableEq, Repr

/-- `_DatabaseRulesService.__init__(app)` from `_rules.py`: reads
`app.options.get('databaseURL')`, raises `ValueError` when it is falsy, then
validates it through `_DatabaseService._validate_url` — a collaborator from
`firebase_admin.db`, outside these modules, passed here as a function
argument — and builds the per-instance state.  The second component lists the
HTTP requests issued during construction (none). -/
def serviceInit (validate_url : String → Except PyError String)
    (databaseURL : Option String) (httpTimeout : Option Nat) :
    Except PyError ServiceState × List HttpRequest :=
  if pyTruthyStrOpt databaseURL then
    let url := databaseURL.getD ""
    match validate_url url with
    | .error e => (.error e, [])
    | .ok validated => (.ok ⟨validated, url, httpTimeout⟩, [])
  else
    (.error (.valueError ("Database URL is required to access the Database Rules Service. " ++
      "Make sure to set the databaseURL option.")), [])

end DatabaseRules

/-! ### Helper lemmas -/

theorem pyFormat_two (a l1 b : String) :
    pyFormat [a, b] [.arg 0, .lit l1, .arg 1] = .ok (a ++ l1 ++ b) := by
  simp [pyFormat, Except.map, String.append_assoc]

theorem pyFormat_three (a l1 b l2 c : String) :
    pyFormat [a, b, c] [.arg 0, .lit l1, .arg 1, .lit l2, .arg 2] =
      .ok (a ++ l1 ++ b ++ l2 ++ c) := by
  simp [pyFormat, Except.map, String.append_assoc]

theorem pyFormat_three_tail (a l1 b l2 c l3 : String) :
    pyFormat [a, b, c] [.arg 0, .lit l1, .arg 1, .lit l2, .arg 2, .lit l3] =
      .ok (a ++ l1 ++ b ++ l2 ++ c ++ l3) := by
  simp [pyFormat, Except.map, String.append_assoc]

/-! ### Claims -/

/-- C3: for every successful `get_rules_release` call whose backend response has
`name = "projects/p1/releases/live"` and `rulesetName = "projects/p1/rulesets/abc"`
(for any `createTime`/`updateTime` and any requested release name), the returned
`RulesRelease` is built from the short names: `name = "live"`,
`ruleset_id = "abc"`. -/
theorem get_rules_release_extracts_short_names (reqName ct ut : String) :
    (FirebaseRules.get_rules_release reqName
        (.ok ⟨"projects/p1/releases/live", "projects/p1/rulesets/abc", ct, ut⟩)).1 =
      .ok ⟨"live", "abc", ct, ut⟩ := by
  rfl

/-- C10: a `Ruleset` constructed with `files=None` and `service=None` returns
`None` from the `files` property with no fetch and no error; a `Ruleset`
constructed with a non-`None` files value returns that value unchanged with no
fetch, regardless of the service reference. -/
theorem ruleset_files_none_and_preset (rid ct : String) (fs : List RulesetFile)
    (svc : Option (String → List RulesetFile)) :
    Ruleset.files ⟨rid, ct, none, none⟩ = (none, ⟨rid, ct, none, none⟩, 0) ∧
    Ruleset.files ⟨rid, ct, svc, some fs⟩ = (some fs, ⟨rid, ct, svc, some fs⟩, 0) := by
  constructor
  · rfl
  · cases svc <;> rfl

/-- C4: a `Ruleset` constructed with `files=None` and a live service reference
performs exactly one `get_ruleset` fetch on the first `files` access, caching
the result; and on any `Ruleset` whose files are loaded, a `files` access
performs no fetch, returns the cached value, and leaves the object unchanged —
so after the first access the value never changes and no further fetch ever
happens. -/
theorem ruleset_files_lazy_single_fetch (svc : String → List RulesetFile) (rid ct : String) :
    Ruleset.files ⟨rid, ct, some svc, none⟩ =
      (some (svc rid), ⟨rid, ct, some svc, some (svc rid)⟩, 1) ∧
    (∀ (r : Ruleset) (fs : List RulesetFile), r.filesStored = some fs →
      r.files = (some fs, r, 0)) := by
  constructor
  · rfl
  · intro r fs h
    obtain ⟨a, b, c, d⟩ := r
    cases h
    cases c <;> rfl

/-- Witness for C4 at a concrete service and ruleset. -/
theorem ruleset_files_lazy_single_fetch_witness :
    Ruleset.files ⟨"r1", "t0", some (fun _ => [⟨"f", "c"⟩]), none⟩ =
      (some [⟨"f", "c"⟩], ⟨"r1", "t0", some (fun _ => [⟨"f", "c"⟩]), some [⟨"f", "c"⟩]⟩, 1) ∧
    Ruleset.files ⟨"r1", "t0", none, some [⟨"f", "c"⟩]⟩ =
      (some [⟨"f", "c"⟩], ⟨"r1", "t0", none, some [⟨"f", "c"⟩]⟩, 0) :=
  ⟨(ruleset_files_lazy_single_fetch (fun _ => [⟨"f", "c"⟩]) "r1" "t0").1,
   (ruleset_files_lazy_single_fetch (fun _ => [⟨"f", "c"⟩]) "r1" "t0").2
     ⟨"r1", "t0", none, some [⟨"f", "c"⟩]⟩ [⟨"f", "c"⟩] rfl⟩

/-- C5: `_get_release_name_for_service` with service `'storage'` raises the
storage-bucket `ValueError` (with no network interaction — the function issues
no request) whenever the configured bucket is falsy; with bucket `"b1"` it
returns `"firebase.storage/b1"`; and with service `'firestore'` it returns
`"cloud.firestore"` for every bucket configuration. -/
theorem release_name_for_service_storage_firestore (bucket : Option String) :
    FirebaseRules.get_release_name_for_service bucket "firestore" = .ok "cloud.firestore" ∧
    (pyTruthyStrOpt bucket = false →
      FirebaseRules.get_release_name_for_service bucket "storage" =
        .error (.valueError ("Unable to determine the storage bucket to use. " ++
          "Make sure to set the \"storageBucket\" option when calling initializeApp()."))) ∧
    FirebaseRules.get_release_name_for_service (some "b1") "storage" =
      .ok "firebase.storage/b1" := by
  refine ⟨rfl, ?_, rfl⟩
  intro h
  simp [FirebaseRules.get_release_name_for_service, FirebaseRules.RELEASE_NAME_FOR_SERVICE,
    List.lookup, h]

/-- Witness for C5 with no bucket configured. -/
theorem release_name_for_service_storage_firestore_witness :
    FirebaseRules.get_release_name_for_service none "storage" =
      .error (.valueError ("Unable to determine the storage bucket to use. " ++
        "Make sure to set the \"storageBucket\" option when calling initializeApp().")) :=
  (release_name_for_service_storage_firestore none).2.1 rfl

/-- C9: for every service key other than `'firestore'` and `'storage'`, the
release-name mapping raises `KeyError` for that key, for every bucket
configuration (so before any bucket check); and a `KeyError` arises exactly
for the keys outside the two-entry mapping, never the `ValueError` used for a
missing bucket. -/
theorem release_name_for_service_key_error (bucket : Option String) (service : String) :
    (service ≠ "firestore" → service ≠ "storage" →
      FirebaseRules.get_release_name_for_service bucket service =
        .error (.keyError service)) ∧
    (∀ k, FirebaseRules.get_release_name_for_service bucket service = .error (.keyError k) →
      service ≠ "firestore" ∧ service ≠ "storage" ∧ k = service) := by
  by_cases h1 : service = "firestore"
  · subst h1
    refine ⟨fun hc _ => absurd rfl hc, fun k hk => ?_⟩
    simp [FirebaseRules.get_release_name_for_service, FirebaseRules.RELEASE_NAME_FOR_SERVICE,
      List.lookup] at hk
  · by_cases h2 : service = "storage"
    · subst h2
      refine ⟨fun _ hc => absurd rfl hc, fun k hk => ?_⟩
      cases hb : pyTruthyStrOpt bucket <;>
        simp [FirebaseRules.get_release_name_for_service, FirebaseRules.RELEASE_NAME_FOR_SERVICE,
          List.lookup, hb] at hk
    · have e1 : (service == "firestore") = false := beq_eq_false_iff_ne.mpr h1
      have e2 : (service == "storage") = false := beq_eq_false_iff_ne.mpr h2
      refine ⟨fun _ _ => ?_, fun k hk => ?_⟩
      · simp [FirebaseRules.get_release_name_for_service, FirebaseRules.RELEASE_NAME_FOR_SERVICE,
          List.lookup, e1, e2]
      · simp [FirebaseRules.get_release_name_for_service, FirebaseRules.RELEASE_NAME_FOR_SERVICE,
          List.lookup, e1, e2] at hk
        exact ⟨h1, h2, hk.symm⟩

/-- Witness for C9 at the unknown key `"database"`. -/
theorem release_name_for_service_key_error_witness :
    FirebaseRules.get_release_name_for_service none "database" =
      .error (.keyError "database") :=
  (release_name_for_service_key_error none "database").1 (by decide) (by decide)

/-- C2 counterexample: at status 400 the constructed message embeds the code
text `Invalid argument provided.`, which is not the documented table text
`Invalid argument`. -/
theorem error_table_text_differs_from_table :
    FirebaseRules.extract_message "r1" "Release" ⟨some 400, ""⟩ =
      .ok "Release \"r1\": Invalid argument provided." ∧
    "Invalid argument provided." ≠ "Invalid argument" :=
  ⟨rfl, by decide⟩

/-- C2 (amended): for every status in a client's table, the constructed error
message embeds that client's exact source string for the status (the spec
table entries are abbreviations of these strings, not the strings themselves). -/
theorem error_table_messages_match_code (identifier label op estr : String) :
    (FirebaseRules.extract_message identifier label ⟨some 400, estr⟩ =
       .ok (label ++ " \"" ++ identifier ++ "\": " ++ "Invalid argument provided.")) ∧
    (FirebaseRules.extract_message identifier label ⟨some 401, estr⟩ =
       .ok (label ++ " \"" ++ identifier ++ "\": " ++ "Request not authorized.")) ∧
    (FirebaseRules.extract_message identifier label ⟨some 403, estr⟩ =
       .ok (label ++ " \"" ++ identifier ++ "\": " ++
         "Client does not have sufficient privileges.")) ∧
    (FirebaseRules.extract_message identifier label ⟨some 404, estr⟩ =
       .ok (label ++ " \"" ++ identifier ++ "\": " ++
         "The specified entity could not be found.")) ∧
    (FirebaseRules.extract_message identifier label ⟨some 409, estr⟩ =
       .ok (label ++ " \"" ++ identifier ++ "\": " ++
         "The specified entity already exists.")) ∧
    (FirebaseRules.extract_message identifier label ⟨some 429, estr⟩ =
       .ok (label ++ " \"" ++ identifier ++ "\": " ++
         "Quota exceeded for the requested resource.")) ∧
    (FirebaseRules.extract_message identifier label ⟨some 500, estr⟩ =
       .ok (label ++ " \"" ++ identifier ++ "\": " ++ "Internal server error.")) ∧
    (FirebaseRules.extract_message identifier label ⟨some 503, estr⟩ =
       .ok (label ++ " \"" ++ identifier ++ "\": " ++
         "The server could not process the request in time.")) ∧
    (FirebaseRulesSvc.extract_message identifier label ⟨some 400, estr⟩ =
       .ok (label ++ " \"" ++ identifier ++ "\": " ++ "Invalid argument provided.")) ∧
    (FirebaseRulesSvc.extract_message identifier label ⟨some 401, estr⟩ =
       .ok (label ++ " \"" ++ identifier ++ "\": " ++ "Request not authorized.")) ∧
    (FirebaseRulesSvc.extract_message identifier label ⟨some 403, estr⟩ =
       .ok (label ++ " \"" ++ identifier ++ "\": " ++
         "Client does not have sufficient privileges.")) ∧
    (FirebaseRulesSvc.extract_message identifier label ⟨some 404, estr⟩ =
       .ok (label ++ " \"" ++ identifier ++ "\": " ++
         "The specified entity could not be found.")) ∧
    (FirebaseRulesSvc.extract_message identifier label ⟨some 409, estr⟩ =
       .ok (label ++ " \"" ++ identifier ++ "\": " ++
         "The specified entity already exists.")) ∧
    (FirebaseRulesSvc.extract_message identifier label ⟨some 429, estr⟩ =
       .ok (label ++ " \"" ++ identifier ++ "\": " ++
         "Quota exceeded for the requested resource.")) ∧
    (FirebaseRulesSvc.extract_message identifier label ⟨some 500, estr⟩ =
       .ok (label ++ " \"" ++ identifier ++ "\": " ++ "Internal server error.")) ∧
    (FirebaseRulesSvc.extract_message identifier label ⟨some 503, estr⟩ =
       .ok (label ++ " \"" ++ identifier ++ "\": " ++
         "The server could not process the request in time.")) ∧
    (DatabaseRules.extract_message op ⟨some 400, estr⟩ =
       .ok (op ++ " Database rules: " ++ "Invalid argument provided.")) ∧
    (DatabaseRules.extract_message op ⟨some 401, estr⟩ =
       .ok (op ++ " Database rules: " ++ "Request not authorized.")) ∧
    (DatabaseRules.extract_message op ⟨some 403, estr⟩ =
       .ok (op ++ " Database rules: " ++ "Client does not have sufficient privileges.")) ∧
    (DatabaseRules.extract_message op ⟨some 404, estr⟩ =
       .ok (op ++ " Database rules: " ++ "The specified entity could not be found.")) ∧
    (DatabaseRules.extract_message op ⟨some 409, estr⟩ =
       .ok (op ++ " Database rules: " ++ "The specified entity already exists.")) ∧
    (DatabaseRules.extract_message op ⟨some 423, estr⟩ =
       .ok (op ++ " Database rules: " ++ "The database has been manually locked by an owner.")) ∧
    (DatabaseRules.extract_message op ⟨some 500, estr⟩ =
       .ok (op ++ " Database rules: " ++ "Internal server error.")) ∧
    (DatabaseRules.extract_message op ⟨some 503, estr⟩ =
       .ok (op ++ " Database rules: " ++ "The server could not process the request in time.")) :=
  ⟨pyFormat_three label " \"" identifier "\": " _,
   pyFormat_three label " \"" identifier "\": " _,
   pyFormat_three label " \"" identifier "\": " _,
   pyFormat_three label " \"" identifier "\": " _,
   pyFormat_three label " \"" identifier "\": " _,
   pyFormat_three label " \"" identifier "\": " _,
   pyFormat_three label " \"" identifier "\": " _,
   pyFormat_three label " \"" identifier "\": " _,
   pyFormat_three label " \"" identifier "\": " _,
   pyFormat_three label " \"" identifier "\": " _,
   pyFormat_three label " \"" identifier "\": " _,
   pyFormat_three label " \"" identifier "\": " _,
   pyFormat_three label " \"" identifier "\": " _,
   pyFormat_three label " \"" identifier "\": " _,
   pyFormat_three label " \"" identifier "\": " _,
   pyFormat_three label " \"" identifier "\": " _,
   pyFormat_two op " Database rules: " _,
   pyFormat_two op " Database rules: " _,
   pyFormat_two op " Database rules: " _,
   pyFormat_two op " Database rules: " _,
   pyFormat_two op " Database rules: " _,
   pyFormat_two op " Database rules: " _,
   pyFormat_two op " Database rules: " _,
   pyFormat_two op " Database rules: " _⟩

/-- C1 counterexample: at unmapped status 418 the `_rules.py` database
client's `_extract_message` constructs no message at all — the format string
`'{0} Database rules: Error {2}.'` applied to the two arguments
`(operation, status)` raises `IndexError` on replacement index 2. -/
theorem db_unmapped_status_message_is_index_error :
    DatabaseRules.extract_message "Get" ⟨some 418, "boom"⟩ =
      .error (.indexError 2) := rfl

/-- C1 (amended): for every status outside the table and every
identifier/label pair, the two `_FirebaseRulesService._extract_message`
implementations return exactly the generic message
`{label} "{identifier}": Error {status}.`; the `_rules.py`
`_DatabaseRulesService._extract_message`, which takes an operation instead of
an identifier/label pair, raises `IndexError` (replacement index 2 of a
two-argument format) for every status outside its table. -/
theorem unmapped_status_generic_message (identifier label op estr : String) (status : Nat) :
    (status ∉ [400, 401, 403, 404, 409, 429, 500, 503] →
      FirebaseRules.extract_message identifier label ⟨some status, estr⟩ =
        .ok (label ++ " \"" ++ identifier ++ "\": Error " ++ toString status ++ ".") ∧
      FirebaseRulesSvc.extract_message identifier label ⟨some status, estr⟩ =
        .ok (label ++ " \"" ++ identifier ++ "\": Error " ++ toString status ++ ".")) ∧
    (status ∉ [400, 401, 403, 404, 409, 423, 500, 503] →
      DatabaseRules.extract_message op ⟨some status, estr⟩ =
        .error (.indexError 2)) := by
  constructor
  · intro h
    simp only [List.mem_cons, List.not_mem_nil, or_false, not_or] at h
    obtain ⟨n1, n2, n3, n4, n5, n6, n7, n8⟩ := h
    have e1 : (status == 400) = false := beq_eq_false_iff_ne.mpr n1
    have e2 : (status == 401) = false := beq_eq_false_iff_ne.mpr n2
    have e3 : (status == 403) = false := beq_eq_false_iff_ne.mpr n3
    have e4 : (status == 404) = false := beq_eq_false_iff_ne.mpr n4
    have e5 : (status == 409) = false := beq_eq_false_iff_ne.mpr n5
    have e6 : (status == 429) = false := beq_eq_false_iff_ne.mpr n6
    have e7 : (status == 500) = false := beq_eq_false_iff_ne.mpr n7
    have e8 : (status == 503) = false := beq_eq_false_iff_ne.mpr n8
    have hlk : FirebaseRules.ERROR_CODES.lookup status = none := by
      simp [FirebaseRules.ERROR_CODES, List.lookup, e1, e2, e3, e4, e5, e6, e7, e8]
    have hlk2 : FirebaseRulesSvc.ERROR_CODES.lookup status = none := by
      simp [FirebaseRulesSvc.ERROR_CODES, List.lookup, e1, e2, e3, e4, e5, e6, e7, e8]
    constructor
    · rw [show FirebaseRules.extract_message identifier label ⟨some status, estr⟩ =
          (if pyTruthyStrOpt (FirebaseRules.ERROR_CODES.lookup status) then
            pyFormat [label, identifier, (FirebaseRules.ERROR_CODES.lookup status).getD ""]
              [.arg 0, .lit " \"", .arg 1, .lit "\": ", .arg 2]
          else
            pyFormat [label, identifier, toString status]
              [.arg 0, .lit " \"", .arg 1, .lit "\": Error ", .arg 2, .lit "."]) from rfl,
        hlk]
      simpa [pyTruthyStrOpt] using
        pyFormat_three_tail label " \"" identifier "\": Error " (toString status) "."
    · rw [show FirebaseRulesSvc.extract_message identifier label ⟨some status, estr⟩ =
          (if pyTruthyStrOpt (FirebaseRulesSvc.ERROR_CODES.lookup status) then
            pyFormat [label, identifier, (FirebaseRulesSvc.ERROR_CODES.lookup status).getD ""]
              [.arg 0, .lit " \"", .arg 1, .lit "\": ", .arg 2]
          else
            pyFormat [label, identifier, toString status]
              [.arg 0, .lit " \"", .arg 1, .lit "\": Error ", .arg 2, .lit "."]) from rfl,
        hlk2]
      simpa [pyTruthyStrOpt] using
        pyFormat_three_tail label " \"" identifier "\": Error " (toString status) "."
  · intro h
    simp only [List.mem_cons, List.not_mem_nil, or_false, not_or] at h
    obtain ⟨n1, n2, n3, n4, n5, n6, n7, n8⟩ := h
    have e1 : (status == 400) = false := beq_eq_false_iff_ne.mpr n1
    have e2 : (status == 401) = false := beq_eq_false_iff_ne.mpr n2
    have e3 : (status == 403) = false := beq_eq_false_iff_ne.mpr n3
    have e4 : (status == 404) = false := beq_eq_false_iff_ne.mpr n4
    have e5 : (status == 409) = false := beq_eq_false_iff_ne.mpr n5
    have e6 : (status == 423) = false := beq_eq_false_iff_ne.mpr n6
    have e7 : (status == 500) = false := beq_eq_false_iff_ne.mpr n7
    have e8 : (status == 503) = false := beq_eq_false_iff_ne.mpr n8
    have hlk : DatabaseRules.ERROR_CODES.lookup status = none := by
      simp [DatabaseRules.ERROR_CODES, List.lookup, e1, e2, e3, e4, e5, e6, e7, e8]
    rw [show DatabaseRules.extract_message op ⟨some status, estr⟩ =
        (if pyTruthyStrOpt (DatabaseRules.ERROR_CODES.lookup status) then
          pyFormat [op, (DatabaseRules.ERROR_CODES.lookup status).getD ""]
            [.arg 0, .lit " Database rules: ", .arg 1]
        else
          pyFormat [op, toString status]
            [.arg 0, .lit " Database rules: Error ", .arg 2, .lit "."]) from rfl,
      hlk]
    rfl

/-- Witness for the amended C1 at status 418. -/
theorem unmapped_status_generic_message_witness :
    (FirebaseRules.extract_message "r1" "Release" ⟨some 418, "boom"⟩ =
       .ok ("Release" ++ " \"" ++ "r1" ++ "\": Error " ++ toString 418 ++ ".") ∧
     FirebaseRulesSvc.extract_message "r1" "Release" ⟨some 418, "boom"⟩ =
       .ok ("Release" ++ " \"" ++ "r1" ++ "\": Error " ++ toString 418 ++ ".")) ∧
    DatabaseRules.extract_message "Set" ⟨some 418, "boom"⟩ = .error (.indexError 2) :=
  ⟨(unmapped_status_generic_message "r1" "Release" "Set" "boom" 418).1 (by decide),
   (unmapped_status_generic_message "r1" "Release" "Set" "boom" 418).2 (by decide)⟩

/-- C6: the Firebase Rules client constructor raises the project-id
`ValueError` whenever the resolvable project id is falsy (absent or empty) and
otherwise succeeds; the Database Rules client constructor raises the
database-URL `ValueError` whenever the database URL is falsy (absent or empty)
and otherwise — when the external URL validation accepts the URL — succeeds.
In every case the list of HTTP requests issued during construction is empty:
the configuration errors happen before any network call, and successful
construction issues none either. -/
theorem service_constructors_config_errors (pid dburl bucket : Option String)
    (t : Option Nat) (validate_url : String → Except PyError String) :
    (pyTruthyStrOpt pid = false →
      FirebaseRules.serviceInit pid bucket t =
        (.error (.valueError ("Project ID is required to access the Firebase Rules Service. " ++
          "Either set the projectId option, or use service account credentials. " ++
          "Alternatively, set the GOOGLE_CLOUD_PROJECT environment variable.")), [])) ∧
    (pyTruthyStrOpt pid = true →
      ∃ st, FirebaseRules.serviceInit pid bucket t = (.ok st, [])) ∧
    (pyTruthyStrOpt dburl = false →
      DatabaseRules.serviceInit validate_url dburl t =
        (.error (.valueError ("Database URL is required to access the Database Rules Service. " ++
          "Make sure to set the databaseURL option.")), [])) ∧
    (∀ vu, pyTruthyStrOpt dburl = true → validate_url (dburl.getD "") = .ok vu →
      ∃ st, DatabaseRules.serviceInit validate_url dburl t = (.ok st, [])) := by
  refine ⟨fun h => ?_, fun h => ?_, fun h => ?_, fun vu h hv => ?_⟩
  · simp [FirebaseRules.serviceInit, h]
  · simp only [FirebaseRules.serviceInit, h, if_true]
    exact ⟨_, rfl⟩
  · simp [DatabaseRules.serviceInit, h]
  · simp only [DatabaseRules.serviceInit, h, if_true, hv]
    exact ⟨_, rfl⟩

/-- Witness for C6: missing and present project id / database URL. -/
theorem service_constructors_config_errors_witness :
    (FirebaseRules.serviceInit none none none =
      (.error (.valueError ("Project ID is required to access the Firebase Rules Service. " ++
        "Either set the projectId option, or use service account credentials. " ++
        "Alternatively, set the GOOGLE_CLOUD_PROJECT environment variable.")), [])) ∧
    (∃ st, FirebaseRules.serviceInit (some "p1") none none = (.ok st, [])) ∧
    (DatabaseRules.serviceInit (fun s => .ok s) none none =
      (.error (.valueError ("Database URL is required to access the Database Rules Service. " ++
        "Make sure to set the databaseURL option.")), [])) ∧
    (∃ st, DatabaseRules.serviceInit (fun s => .ok s) (some "https://db.example") none =
      (.ok st, [])) :=
  ⟨(service_constructors_config_errors none none none none (fun s => .ok s)).1 rfl,
   (service_constructors_config_errors (some "p1") none none none (fun s => .ok s)).2.1 rfl,
   (service_constructors_config_errors none none none none (fun s => .ok s)).2.2.1 rfl,
   (service_constructors_config_errors none (some "https://db.example") none none
      (fun s => .ok s)).2.2.2 "https://db.example" rfl rfl⟩

/-- C7: `create_rules_release(name, ruleset_id)` issues exactly one POST to
`releases` and `update_rules_release(name, ruleset_id)` exactly one PATCH to
`releases/{name}`, both with body
`{release: {name: projects/{p}/releases/{name}, rulesetName: projects/{p}/rulesets/{ruleset_id}}}`
for the client's project id `p`; and on any response both parse it into a
`RulesRelease` exactly as `get_rules_release` does. -/
theorem release_write_ops_request_and_parse (p name rid : String)
    (tr : Except RequestError ReleaseResponse) :
    ((FirebaseRules.create_rules_release p name rid tr).2 =
       [⟨"post", "releases", some (.obj [("release", .obj
          [("name", .str ("projects/" ++ p ++ "/releases/" ++ name)),
           ("rulesetName", .str ("projects/" ++ p ++ "/rulesets/" ++ rid))])])⟩]) ∧
    ((FirebaseRules.update_rules_release p name rid tr).2 =
       [⟨"patch", "releases/" ++ name, some (.obj [("release", .obj
          [("name", .str ("projects/" ++ p ++ "/releases/" ++ name)),
           ("rulesetName", .str ("projects/" ++ p ++ "/rulesets/" ++ rid))])])⟩]) ∧
    (∀ resp : ReleaseResponse,
      (FirebaseRules.create_rules_release p name rid (.ok resp)).1 =
        (FirebaseRules.get_rules_release name (.ok resp)).1 ∧
      (FirebaseRules.update_rules_release p name rid (.ok resp)).1 =
        (FirebaseRules.get_rules_release name (.ok resp)).1) := by
  refine ⟨rfl, rfl, fun resp => ?_⟩
  constructor <;>
  · cases h1 : FirebaseRules.extract_release_name resp.name <;>
      cases h2 : FirebaseRules.extract_ruleset_id resp.rulesetName <;>
        simp [FirebaseRules.create_rules_release, FirebaseRules.update_rules_release,
          FirebaseRules.get_rules_release, h1, h2]

theorem string_data_mk (l : List Char) : (String.mk l).data = l := rfl

theorem dropLit_eq (pat : List Char) : ∀ (l rest : List Char),
    dropLit pat l = some rest → l = pat ++ rest := by
  induction pat with
  | nil => intro l rest h; cases h; rfl
  | cons p ps ih =>
    intro l rest h
    cases l with
    | nil => cases h
    | cons c cs =>
      by_cases hc : c = p
      · subst hc
        simp only [dropLit, if_pos rfl] at h
        have := ih cs rest h
        simp [this]
      · simp only [dropLit, if_neg hc] at h
        exact Option.noConfusion h

theorem takeUntilSlash_eq : ∀ (l a b : List Char),
    takeUntilSlash l = some (a, b) → l = a ++ '/' :: b := by
  intro l
  induction l with
  | nil => intro a b h; cases h
  | cons c cs ih =>
    intro a b h
    by_cases hc : c = '/'
    · subst hc
      simp only [takeUntilSlash, if_pos rfl, Option.some.injEq, Prod.mk.injEq] at h
      obtain ⟨rfl, rfl⟩ := h
      rfl
    · simp only [takeUntilSlash, if_neg hc] at h
      cases hcs : takeUntilSlash cs with
      | none =>
        simp only [hcs] at h
        exact Option.noConfusion h
      | some pr =>
        obtain ⟨a2, b2⟩ := pr
        simp only [hcs, Option.some.injEq, Prod.mk.injEq] at h
        obtain ⟨rfl, rfl⟩ := h
        have := ih a2 b2 hcs
        simp [this]

theorem matchResource_decomp (mid name r : List Char)
    (h : matchResource mid name = some r) :
    ∃ p tail, name = "projects/".toList ++ (p ++ '/' :: (mid ++ '/' :: tail)) := by
  unfold matchResource at h
  cases h1 : dropLit "projects/".toList name with
  | none => simp only [h1] at h; exact Option.noConfusion h
  | some rest =>
    simp only [h1] at h
    cases h2 : takeUntilSlash rest with
    | none => simp only [h2] at h; exact Option.noConfusion h
    | some pr =>
      obtain ⟨p, rest2⟩ := pr
      simp only [h2] at h
      by_cases hp : p.isEmpty = true
      · simp only [if_pos hp] at h; exact Option.noConfusion h
      · simp only [if_neg hp] at h
        cases h3 : dropLit (mid ++ ['/']) rest2 with
        | none => simp only [h3] at h; exact Option.noConfusion h
        | some r0 =>
          have e1 := dropLit_eq _ _ _ h1
          have e2 := takeUntilSlash_eq _ _ _ h2
          have e3 := dropLit_eq _ _ _ h3
          refine ⟨p, r0, ?_⟩
          rw [e1, e2, e3]
          simp [List.append_assoc]

theorem matchResource_none_of_no_decomp (mid s : String)
    (h : ¬ ∃ p suf : String, s = "projects/" ++ p ++ ("/" ++ mid ++ "/") ++ suf) :
    matchResource mid.toList s.toList = none := by
  cases hm : matchResource mid.toList s.toList with
  | none => rfl
  | some r =>
    exfalso
    apply h
    obtain ⟨p, tail, hdec⟩ := matchResource_decomp _ _ _ hm
    refine ⟨String.mk p, String.mk tail, ?_⟩
    apply String.ext
    have hdec2 : s.data = "projects/".toList ++ (p ++ '/' :: (mid.toList ++ '/' :: tail)) := hdec
    simp only [String.data_append, string_data_mk, hdec2]
    simp [List.append_assoc, String.toList]

/-- C8: the resource-name extractors are partial — on any string not of the
form `projects/{p}/releases/{suffix}` (resp. `projects/{p}/rulesets/{suffix}`)
the regex match is `None` and `.group(2)` raises `AttributeError`; and any
response whose resource name makes an extractor fail causes
`get_rules_release`, `create_rules_release`, `update_rules_release`,
`get_ruleset` and `create_ruleset` to fail with that unwrapped
`AttributeError`, not with a `RulesApiCallError`. -/
theorem malformed_resource_names_crash_unwrapped (s : String) :
    ((¬ ∃ p suf : String, s = "projects/" ++ p ++ "/releases/" ++ suf) →
      FirebaseRules.extract_release_name s = none) ∧
    ((¬ ∃ p suf : String, s = "projects/" ++ p ++ "/rulesets/" ++ suf) →
      FirebaseRules.extract_ruleset_id s = none) ∧
    (∀ (resp : ReleaseResponse) (n pj rid : String),
      (FirebaseRules.extract_release_name resp.name = none ∨
        FirebaseRules.extract_ruleset_id resp.rulesetName = none) →
      (FirebaseRules.get_rules_release n (.ok resp)).1 =
          .pyError (.attributeError "NoneType object has no attribute group") ∧
        (FirebaseRules.create_rules_release pj n rid (.ok resp)).1 =
          .pyError (.attributeError "NoneType object has no attribute group") ∧
        (FirebaseRules.update_rules_release pj n rid (.ok resp)).1 =
          .pyError (.attributeError "NoneType object has no attribute group")) ∧
    (∀ (resp : RulesetResponse) (rid : String) (files : List RulesetFile),
      FirebaseRules.extract_ruleset_id resp.name = none →
      (FirebaseRules.get_ruleset rid (.ok resp)).1 =
          .pyError (.attributeError "NoneType object has no attribute group") ∧
        (FirebaseRules.create_ruleset files (.ok resp)).1 =
          .pyError (.attributeError "NoneType object has no attribute group")) := by
  refine ⟨?_, ?_, ?_, ?_⟩
  · intro h
    have h2 : ¬ ∃ p suf : String,
        s = "projects/" ++ p ++ ("/" ++ "releases" ++ "/") ++ suf := h
    have hm := matchResource_none_of_no_decomp "releases" s h2
    unfold FirebaseRules.extract_release_name
    rw [hm]
    rfl
  · intro h
    have h2 : ¬ ∃ p suf : String,
        s = "projects/" ++ p ++ ("/" ++ "rulesets" ++ "/") ++ suf := h
    have hm := matchResource_none_of_no_decomp "rulesets" s h2
    unfold FirebaseRules.extract_ruleset_id
    rw [hm]
    rfl
  · intro resp n pj rid h
    rcases h with h | h
    · refine ⟨?_, ?_, ?_⟩ <;>
        simp [FirebaseRules.get_rules_release, FirebaseRules.create_rules_release,
          FirebaseRules.update_rules_release, FirebaseRules.noneGroupError, h]
    · cases hE : FirebaseRules.extract_release_name resp.name <;>
        refine ⟨?_, ?_, ?_⟩ <;>
          simp [FirebaseRules.get_rules_release, FirebaseRules.create_rules_release,
            FirebaseRules.update_rules_release, FirebaseRules.noneGroupError, hE, h]
  · intro resp rid files h
    constructor <;>
      simp [FirebaseRules.get_ruleset, FirebaseRules.create_ruleset,
        FirebaseRules.noneGroupError, h]

/-- Witness for C8 at the malformed resource name `"bogus"`. -/
theorem malformed_resource_names_crash_unwrapped_witness :
    FirebaseRules.extract_release_name "bogus" = none ∧
    FirebaseRules.extract_ruleset_id "bogus" = none ∧
    (FirebaseRules.get_rules_release "r1"
        (.ok ⟨"bogus", "projects/p1/rulesets/abc", "t1", "t2"⟩)).1 =
      .pyError (.attributeError "NoneType object has no attribute group") ∧
    (FirebaseRules.get_ruleset "rs1" (.ok ⟨"bogus", "t1", []⟩)).1 =
      .pyError (.attributeError "NoneType object has no attribute group") :=
  ⟨(malformed_resource_names_crash_unwrapped "bogus").1 (by
      rintro ⟨p, suf, hh⟩
      have hl := congrArg String.length hh
      simp only [String.length_append] at hl
      have e1 : ("bogus" : String).length = 5 := rfl
      have e2 : ("projects/" : String).length = 9 := rfl
      have e3 : ("/releases/" : String).length = 10 := rfl
      rw [e1, e2, e3] at hl
      omega),
   (malformed_resource_names_crash_unwrapped "bogus").2.1 (by
      rintro ⟨p, suf, hh⟩
      have hl := congrArg String.length hh
      simp only [String.length_append] at hl
      have e1 : ("bogus" : String).length = 5 := rfl
      have e2 : ("projects/" : String).length = 9 := rfl
      have e3 : ("/rulesets/" : String).length = 10 := rfl
      rw [e1, e2, e3] at hl
      omega),
   ((malformed_resource_names_crash_unwrapped "bogus").2.2.1
      ⟨"bogus", "projects/p1/rulesets/abc", "t1", "t2"⟩ "r1" "p1" "abc"
      (Or.inl (by decide))).1,
   ((malformed_resource_names_crash_unwrapped "bogus").2.2.2
      ⟨"bogus", "t1", []⟩ "rs1" [] (by decide)).1⟩
